import Mathlib

/-!
# Snap Money — verification of the spec's claims against the source

Shallow embedding of the THB→KRW converter app (`src/App.tsx`, primary
variant, and `src/unnamed/part_000`, the form-based variant).  Amounts and
rates are modelled as rationals (`ℚ`); the JavaScript string-to-number
boundary functions (`parseFloat`, `JSON.parse` on the schema-constrained
response shapes, `toLocaleString` formatting, the `/api\s*key/i` regex
test) are embedded as executable Lean functions.
-/

namespace SnapMoney

/-- JavaScript whitespace characters (the common ASCII ones plus NBSP;
the model omits the rarer Unicode space code points, which no string in
this development contains). -/
def isJsWs (c : Char) : Bool :=
  c = ' ' || c = '\t' || c = '\n' || c = '\r' || c = '\x0b' || c = '\x0c' || c = ' '

def isDigitCh (c : Char) : Bool :=
  '0' ≤ c && c ≤ '9'

def digitVal (c : Char) : ℕ := c.toNat - '0'.toNat

/-- Numeric value of a list of decimal digit characters (most significant first). -/
def natOfDigits (ds : List Char) : ℕ :=
  ds.foldl (fun n c => 10 * n + digitVal c) 0

/-- JavaScript `parseFloat`: skip leading whitespace, optional sign, then the
longest prefix of the form `digits [. digits]` or `. digits`; `none` models a
`NaN` result (no digits parsed).  Exponent notation, `Infinity` and the rarer
Unicode whitespace are omitted from the model; no input in this development
uses them. -/
def parseFloat (s : String) : Option ℚ :=
  let cs := s.data.dropWhile isJsWs
  let (sign, cs1) : ℚ × List Char :=
    match cs with
    | '-' :: r => (-1, r)
    | '+' :: r => (1, r)
    | _ => (1, cs)
  let intDs := cs1.takeWhile isDigitCh
  let cs2 := cs1.dropWhile isDigitCh
  let fracDs :=
    match cs2 with
    | '.' :: r => r.takeWhile isDigitCh
    | _ => []
  if intDs.isEmpty && fracDs.isEmpty then none
  else some (sign * ((natOfDigits intDs : ℚ) + (natOfDigits fracDs : ℚ) / 10 ^ fracDs.length))

/-! ## JSON parsing (schema-constrained response shapes)

`JSON.parse` is embedded restricted to the shapes the inference request's
response schema constrains the endpoint to emit: an array of numbers
(primary variant) and an object whose single key `"amounts"` holds an array
of numbers (form variant); an empty object is also accepted so that the
form variant's `parsed.amounts === undefined` path is representable.
`none` models a thrown `SyntaxError`. -/

def skipWs (cs : List Char) : List Char := cs.dropWhile isJsWs

/-- JavaScript `String.prototype.trim`: strip leading and trailing
whitespace. -/
def jsTrim (s : String) : String :=
  String.mk (((s.data.dropWhile isJsWs).reverse.dropWhile isJsWs).reverse)

/-- One JSON number: optional `-`, mandatory integer digits, optional
fraction.  Returns the value and the unconsumed rest. -/
def parseJsonNumber (cs : List Char) : Option (ℚ × List Char) :=
  let (sign, cs1) : ℚ × List Char :=
    match cs with
    | '-' :: r => (-1, r)
    | _ => (1, cs)
  let intDs := cs1.takeWhile isDigitCh
  let cs2 := cs1.dropWhile isDigitCh
  if intDs.isEmpty then none
  else
    match cs2 with
    | '.' :: r =>
      let fds := r.takeWhile isDigitCh
      if fds.isEmpty then none
      else some (sign * ((natOfDigits intDs : ℚ) + (natOfDigits fds : ℚ) / 10 ^ fds.length),
                 r.dropWhile isDigitCh)
    | _ => some (sign * (natOfDigits intDs : ℚ), cs2)

/-- Comma-separated JSON numbers (at least one); `fuel` bounds the recursion
by the input length. -/
def parseElems : ℕ → List Char → Option (List ℚ × List Char)
  | 0, _ => none
  | fuel + 1, cs =>
    match parseJsonNumber cs with
    | none => none
    | some (q, rest) =>
      match skipWs rest with
      | ',' :: r2 =>
        match parseElems fuel (skipWs r2) with
        | some (qs, r3) => some (q :: qs, r3)
        | none => none
      | r2 => some ([q], r2)

/-- A whole JSON array of numbers, with nothing but whitespace around it. -/
def parseJsonNumberArray (s : String) : Option (List ℚ) :=
  match skipWs s.data with
  | '[' :: r =>
    match skipWs r with
    | ']' :: r2 => if (skipWs r2).isEmpty then some [] else none
    | r1 =>
      match parseElems (r1.length + 1) r1 with
      | some (qs, rest) =>
        match skipWs rest with
        | ']' :: r3 => if (skipWs r3).isEmpty then some qs else none
        | _ => none
      | none => none
  | _ => none

/-- The form variant's response shape: `{"amounts": [...]}` (→ `some (some l)`),
or an empty object `{}` (→ `some none`, i.e. `parsed.amounts` undefined);
anything else is a parse failure (`none`). -/
def parseAmountsObject (s : String) : Option (Option (List ℚ)) :=
  match skipWs s.data with
  | '{' :: r =>
    match skipWs r with
    | '}' :: r2 => if (skipWs r2).isEmpty then some none else none
    | '"' :: 'a' :: 'm' :: 'o' :: 'u' :: 'n' :: 't' :: 's' :: '"' :: r1 =>
      match skipWs r1 with
      | ':' :: r2 =>
        match skipWs r2 with
        | '[' :: r3 =>
          match skipWs r3 with
          | ']' :: r4 =>
            match skipWs r4 with
            | '}' :: r5 => if (skipWs r5).isEmpty then some (some []) else none
            | _ => none
          | r3' =>
            match parseElems (r3'.length + 1) r3' with
            | some (qs, rest) =>
              match skipWs rest with
              | ']' :: r4 =>
                match skipWs r4 with
                | '}' :: r5 => if (skipWs r5).isEmpty then some (some qs) else none
                | _ => none
              | _ => none
            | none => none
        | _ => none
      | _ => none
    | _ => none
  | _ => none

/-! ## Display formatting (`toLocaleString('ko-KR', { maximumFractionDigits: d })`)

Rounding happens here, and only here: half-away-from-zero (Intl's default
`halfExpand`), at most `d` fractional digits with trailing zeros trimmed
(`minimumFractionDigits` defaults to 0), thousands grouped by `,` as the
`ko-KR` locale does. -/

/-- Round half away from zero (the `halfExpand` rounding of `Intl.NumberFormat`). -/
def jsRound (q : ℚ) : ℤ :=
  if q < 0 then -⌊|q| + 1 / 2⌋ else ⌊q + 1 / 2⌋

/-- Value `q` rounded to `d` fractional digits, as a rational. -/
def roundToFrac (q : ℚ) (d : ℕ) : ℚ :=
  (jsRound (q * 10 ^ d) : ℚ) / 10 ^ d

/-- Group a reversed digit list into blocks of three (least significant first). -/
def chunk3 : List Char → List (List Char)
  | [] => []
  | a :: b :: c :: rest@(_ :: _) => [a, b, c] :: chunk3 rest
  | l => [l]

/-- The decimal digits of `n` with `,` inserted every three digits from the right. -/
def natGroupedString (n : ℕ) : String :=
  String.mk (((chunk3 (toString n).data.reverse).intersperse [',']).flatten.reverse)

/-- Embeds `toLocaleString('ko-KR', { maximumFractionDigits: d })` on a rational. -/
def formatKoKR (q : ℚ) (d : ℕ) : String :=
  let sgn := if q < 0 then "-" else ""
  let scaled := (jsRound (|q| * 10 ^ d)).toNat
  let ip := scaled / 10 ^ d
  let fp := scaled % 10 ^ d
  let fracDs := List.replicate (d - (toString fp).length) '0' ++ (toString fp).data
  let fracTr := (fracDs.reverse.dropWhile (· = '0')).reverse
  sgn ++ natGroupedString ip ++ (if fracTr.isEmpty then "" else "." ++ String.mk fracTr)

/-! ## The credential-error regex

`/api\s*key/i.test(message)` from `src/App.tsx` line 157: somewhere in the
string, `api` (case-insensitive) followed by zero or more whitespace
characters followed by `key` (case-insensitive). -/

def matchKeyAt : List Char → Bool
  | 'k' :: 'e' :: 'y' :: _ => true
  | _ => false

def matchApiKeyAt : List Char → Bool
  | 'a' :: 'p' :: 'i' :: rest => matchKeyAt (rest.dropWhile isJsWs)
  | _ => false

/-- The regex test, `/api\s*key/i.test s`. -/
def testApiKey (s : String) : Bool :=
  ((s.data.map Char.toLower).tails.any matchApiKeyAt)

/-! ## Constants and user-facing messages -/

/-- The constants module, staged at the end of `src/README.md`:
`export const DEFAULT_EXCHANGE_RATE: number = 38.8` (1 THB = 38.8 KRW). -/
def DEFAULT_EXCHANGE_RATE : ℚ := 388 / 10

def msgSelectPhoto : String := "먼저 사진을 선택해주세요."
def msgNoAmounts : String := "사진에서 금액을 감지하지 못했습니다. 다른 사진으로 시도해보세요."
def msgGeneric : String := "금액 감지 중 오류가 발생했습니다."
def msgApiKey : String :=
  "API 키가 없거나 유효하지 않습니다. .env.local에 VITE_GEMINI_API_KEY를 올바르게 설정한 후 개발 서버를 재시작해주세요."
def msgMissingKey : String := "Missing VITE_GEMINI_API_KEY"

/-! ## Primary variant (`src/App.tsx`): state and operations -/

inductive Mode
  | manual
  | photo
deriving DecidableEq

structure PhotoResult where
  original : ℚ
  converted : ℚ
deriving DecidableEq

/-- The `useState` cells of the primary variant's `App` component (theme
omitted: presentational only, touched by no claim).  Files and object URLs
are modelled as opaque numeric tokens. -/
structure AppState where
  mode : Mode
  manualInput : String
  manualResult : String
  imageFile : Option ℕ
  imagePreview : Option ℕ
  photoResults : List PhotoResult
  isLoading : Bool
  error : String
  exchangeRate : ℚ
deriving DecidableEq

def initState : AppState :=
  { mode := .manual, manualInput := "", manualResult := "",
    imageFile := none, imagePreview := none, photoResults := [],
    isLoading := false, error := "", exchangeRate := DEFAULT_EXCHANGE_RATE }

/-- Handler `handleManualInputChange` (`src/App.tsx` lines 81–90). -/
def handleManualInputChange (s : AppState) (value : String) : AppState :=
  match parseFloat value with
  | some a =>
    if 0 ≤ a then
      { s with manualInput := value, manualResult := formatKoKR (a * s.exchangeRate) 2 }
    else { s with manualInput := value, manualResult := "" }
  | none => { s with manualInput := value, manualResult := "" }

/-- Handler `handleFileChange` (`src/App.tsx` lines 92–101): `none` models an
empty `e.target.files`. -/
def handleFileChange (s : AppState) (file : Option ℕ) : AppState :=
  match file with
  | some f =>
    { s with imageFile := some f, imagePreview := some f, error := "", photoResults := [] }
  | none => s

/-- The clear-image button (`src/App.tsx` line 244). -/
def clearImage (s : AppState) : AppState :=
  { s with imagePreview := none, imageFile := none, photoResults := [] }

/-- The mode tab buttons (`src/App.tsx` lines 190–201): they call only
`setMode`. -/
def setModeMain (s : AppState) (m : Mode) : AppState :=
  { s with mode := m }

/-- The manual-result recompute effect (`src/App.tsx` lines 57–64), run after
a rate change. -/
def manualRecompute (s : AppState) : AppState :=
  if s.manualInput = "" then s
  else
    match parseFloat s.manualInput with
    | some a =>
      if 0 ≤ a then { s with manualResult := formatKoKR (a * s.exchangeRate) 2 } else s
    | none => s

/-- The photo-result recompute effect (`src/App.tsx` lines 67–75), run after
a rate change. -/
def photoRecompute (s : AppState) : AppState :=
  if 0 < s.photoResults.length then
    { s with photoResults :=
        s.photoResults.map fun r => { original := r.original, converted := r.original * s.exchangeRate } }
  else s

/-- The footer exchange-rate input's `onChange` (`src/App.tsx` line 285),
`setExchangeRate(parseFloat(e.target.value) || 0)`, followed by the two
recompute effects it triggers. -/
def rateInputChange (s : AppState) (v : String) : AppState :=
  photoRecompute (manualRecompute { s with exchangeRate := (parseFloat v).getD 0 })

/-! ## Primary variant: `handleDetectAndConvert` (`src/App.tsx` lines 105–167)

The environment of one detection attempt — everything the async chain can
observe — is a `DetectEnv`:
* `readError`: `fileToBase64` rejects (with a `ProgressEvent`, not an
  `Error`, so the catch keeps the generic message);
* `missingKey`: `import.meta.env.VITE_GEMINI_API_KEY` is absent, the code
  throws `Error('Missing VITE_GEMINI_API_KEY')` before constructing the
  client — no request is made;
* `requestError m`: `generateContent` rejects with an `Error` whose
  message is `m`;
* `response t m`: the request resolves; `t` is `response.text`
  (`none` models `undefined`), and `m` is the message of the `SyntaxError`
  `JSON.parse` raises if the body is unparseable.

The result records the state right after the synchronous prelude
(`setIsLoading(true); setError(''); setPhotoResults([])`), whether a network
request was issued, and the state after the `finally`. -/

inductive DetectEnv
  | readError
  | missingKey
  | requestError (m : String)
  | response (t : Option String) (m : String)

/-- The body actually handed to `JSON.parse`: `response.text || '[]'`. -/
def effectiveBody (t : Option String) : String :=
  if t.getD "" = "" then "[]" else t.getD ""

/-- The catch block's message mapping (`src/App.tsx` lines 153–162) for a
thrown `Error` with message `m`. -/
def catchMessage (m : String) : String :=
  if testApiKey m then msgApiKey else msgGeneric ++ ": " ++ m

structure DetectTrace where
  startState : AppState
  networkAttempted : Bool
  finalState : AppState

/-- Processing of a resolved response (`src/App.tsx` lines 140–150, with the
`JSON.parse` failure falling into the catch block, lines 151–163). -/
def responseStep (st : AppState) (rate : ℚ) (t : Option String) (m : String) : AppState :=
  match parseJsonNumberArray (effectiveBody t) with
  | none => { st with error := catchMessage m, isLoading := false }
  | some [] => { st with error := msgNoAmounts, isLoading := false }
  | some l =>
    { st with photoResults := l.map fun a => { original := a, converted := a * rate },
              isLoading := false }

def mainDetect (s : AppState) (env : DetectEnv) : DetectTrace :=
  if s.imageFile = none then
    { startState := { s with error := msgSelectPhoto }, networkAttempted := false,
      finalState := { s with error := msgSelectPhoto } }
  else
    let st := { s with isLoading := true, error := "", photoResults := [] }
    match env with
    | .readError =>
      { startState := st, networkAttempted := false,
        finalState := { st with error := msgGeneric, isLoading := false } }
    | .missingKey =>
      { startState := st, networkAttempted := false,
        finalState := { st with error := catchMessage msgMissingKey, isLoading := false } }
    | .requestError m =>
      { startState := st, networkAttempted := true,
        finalState := { st with error := catchMessage m, isLoading := false } }
    | .response t m =>
      { startState := st, networkAttempted := true,
        finalState := responseStep st s.exchangeRate t m }

/-! ## Primary variant: step relation (for reachable-state invariants) -/

inductive MainOp
  | manualChange (v : String)
  | fileSelect (f : Option ℕ)
  | clearImg
  | detect (env : DetectEnv)
  | switchMode (m : Mode)
  | rateChange (v : String)

def applyMain (op : MainOp) (s : AppState) : AppState :=
  match op with
  | .manualChange v => handleManualInputChange s v
  | .fileSelect f => handleFileChange s f
  | .clearImg => clearImage s
  | .detect env => (mainDetect s env).finalState
  | .switchMode m => setModeMain s m
  | .rateChange v => rateInputChange s v

inductive Reachable : AppState → Prop
  | init : Reachable initState
  | step {s : AppState} (op : MainOp) : Reachable s → Reachable (applyMain op s)

/-! ## Form variant (`src/unnamed/part_000`): state and operations -/

inductive FMode
  | manual
  | image
deriving DecidableEq

/-- The `useState` cells of the form variant's `App` component. -/
structure FormState where
  mode : FMode
  rateInput : String
  thbAmount : String
  krwAmount : Option ℚ
  error : Option String
  isDetecting : Bool
  imageResults : Option (List (ℚ × ℚ))
  imageError : Option String
  imageFile : Option ℕ
  imagePreviewUrl : Option ℕ
deriving DecidableEq

def fmsgEnterAmount : String := "바트 금액을 입력해주세요."
def fmsgValidNumber : String := "유효한 숫자를 입력해주세요. (예: \"1200\")"
def fmsgSelectPhoto : String := "변환할 사진을 선택해주세요."
def fmsgNoAmounts : String := "사진에서 금액을 찾을 수 없습니다. 다른 사진으로 시도해보세요."
def fmsgGeneric : String := "금액 감지 중 오류가 발생했습니다"
def fmsgEmptyResponse : String := "모델이 비어있는 응답을 반환했습니다."
def fmsgUnknown : String := "An unknown error occurred"

/-- Function `getCurrentRate` (`src/unnamed/part_000` lines 116–119). -/
def getCurrentRate (rateInput : String) : ℚ :=
  match parseFloat rateInput with
  | none => DEFAULT_EXCHANGE_RATE
  | some r => if r ≤ 0 then DEFAULT_EXCHANGE_RATE else r

/-- Handler `handleConvert` (`src/unnamed/part_000` lines 121–140). -/
def handleConvert (s : FormState) : FormState :=
  if jsTrim s.thbAmount = "" then
    { s with krwAmount := none, error := some fmsgEnterAmount }
  else
    match parseFloat (jsTrim s.thbAmount) with
    | none => { s with krwAmount := none, error := some fmsgValidNumber }
    | some a =>
      if a < 0 then { s with krwAmount := none, error := some fmsgValidNumber }
      else { s with error := none, krwAmount := some (a * getCurrentRate s.rateInput) }

/-- Function `resetImageState` (`src/unnamed/part_000` lines 107–114). -/
def resetImageState (s : FormState) : FormState :=
  { s with imageFile := none, imagePreviewUrl := none, imageResults := none, imageError := none }

/-- The `ModeSwitcher`'s `onModeChange` callback (`src/unnamed/part_000`
lines 210–216). -/
def onModeChange (s : FormState) (m : FMode) : FormState :=
  resetImageState { s with mode := m, error := none, krwAmount := none }

/-- Handler `handleFileChange` (`src/unnamed/part_000` lines 97–105). -/
def formFileChange (s : FormState) (file : Option ℕ) : FormState :=
  match file with
  | some f =>
    { s with imageFile := some f, imagePreviewUrl := some f,
             imageResults := none, imageError := none }
  | none => s

/-- Environment of one form-variant detection attempt: either something in
the `try` block throws before the parse step (`thrown m`, with `m = none`
when the thrown value is not an `Error` instance), or the request resolves
with body text `t`; `m` is then the message of the `SyntaxError` that
`JSON.parse` raises if `t` is unparseable. -/
inductive FormDetectEnv
  | thrown (m : Option String)
  | response (t : String) (m : String)

/-- Handler `handleDetectAndConvert` (`src/unnamed/part_000` lines 142–199),
returning the state after the synchronous prelude and the state after the
`finally`. -/
def formDetect (s : FormState) (env : FormDetectEnv) : FormState × FormState :=
  if s.imageFile = none then
    let s' := { s with imageError := some fmsgSelectPhoto }
    (s', s')
  else
    let st := { s with isDetecting := true, imageError := none, imageResults := none }
    match env with
    | .thrown m =>
      (st, { st with imageError := some (fmsgGeneric ++ ": " ++ m.getD fmsgUnknown),
                     isDetecting := false })
    | .response t m =>
      let body := jsTrim t
      if body = "" then
        (st, { st with imageError := some (fmsgGeneric ++ ": " ++ fmsgEmptyResponse),
                       isDetecting := false })
      else
        match parseAmountsObject body with
        | none =>
          (st, { st with imageError := some (fmsgGeneric ++ ": " ++ m),
                         isDetecting := false })
        | some none =>
          (st, { st with imageError := some fmsgNoAmounts, isDetecting := false })
        | some (some []) =>
          (st, { st with imageError := some fmsgNoAmounts, isDetecting := false })
        | some (some l) =>
          (st, { st with
            imageResults := some (l.map fun thb => (thb, thb * getCurrentRate s.rateInput)),
            isDetecting := false })

/-! ## Concrete example states (used by witnesses and counterexamples) -/

/-- A primary-variant state in photo mode with an image selected and one
displayed result: 1000 THB converted at the default rate 38.8. -/
def photoStateB : AppState :=
  { mode := .photo, manualInput := "", manualResult := "",
    imageFile := some 1, imagePreview := some 1,
    photoResults := [{ original := 1000, converted := 38800 }],
    isLoading := false, error := "", exchangeRate := DEFAULT_EXCHANGE_RATE }

/-- A primary-variant state in photo mode with an image selected and no
results yet. -/
def photoStateC : AppState :=
  { photoStateB with photoResults := [] }

/-- A form-variant state in manual mode with amount input `" 1200 "` and
rate input `"38.8"`. -/
def formStateA : FormState :=
  { mode := .manual, rateInput := "38.8", thbAmount := " 1200 ",
    krwAmount := none, error := none, isDetecting := false,
    imageResults := none, imageError := none,
    imageFile := none, imagePreviewUrl := none }

/-- A form-variant state in image mode with an image selected. -/
def formStateImg : FormState :=
  { formStateA with mode := .image, imageFile := some 1, imagePreviewUrl := some 1 }

/-- The photo-mode exclusivity invariant of the primary variant: a non-empty
error message and a non-empty result list are never present together, and
with no image selected there are no results. -/
def photoInv (s : AppState) : Prop :=
  (s.error = "" ∨ s.photoResults = []) ∧ (s.imageFile = none → s.photoResults = [])

/-! ## Helper lemmas -/

theorem parseFloat_empty : parseFloat "" = none := by decide

/-- The manual-result recompute effect touches only `manualResult`. -/
theorem manualRecompute_frame (s : AppState) :
    (manualRecompute s).photoResults = s.photoResults ∧
    (manualRecompute s).exchangeRate = s.exchangeRate ∧
    (manualRecompute s).error = s.error ∧
    (manualRecompute s).imageFile = s.imageFile ∧
    (manualRecompute s).imagePreview = s.imagePreview ∧
    (manualRecompute s).mode = s.mode ∧
    (manualRecompute s).isLoading = s.isLoading ∧
    (manualRecompute s).manualInput = s.manualInput := by
  unfold manualRecompute
  split
  · simp
  · split
    · split <;> simp
    · simp

/-- The photo-result recompute effect touches only `photoResults`. -/
theorem photoRecompute_frame (s : AppState) :
    (photoRecompute s).exchangeRate = s.exchangeRate ∧
    (photoRecompute s).error = s.error ∧
    (photoRecompute s).imageFile = s.imageFile ∧
    (photoRecompute s).imagePreview = s.imagePreview ∧
    (photoRecompute s).mode = s.mode ∧
    (photoRecompute s).isLoading = s.isLoading ∧
    (photoRecompute s).manualInput = s.manualInput ∧
    (photoRecompute s).manualResult = s.manualResult := by
  unfold photoRecompute
  split <;> simp

/-- The photo recompute preserves the originals, in order. -/
theorem photoRecompute_originals (s : AppState) :
    (photoRecompute s).photoResults.map PhotoResult.original =
      s.photoResults.map PhotoResult.original := by
  unfold photoRecompute
  split <;> simp [List.map_map, Function.comp]

theorem photoRecompute_length (s : AppState) :
    (photoRecompute s).photoResults.length = s.photoResults.length := by
  unfold photoRecompute
  split <;> simp

theorem photoRecompute_nil (s : AppState) (h : s.photoResults = []) :
    (photoRecompute s).photoResults = [] := by
  unfold photoRecompute
  rw [h]
  simp [h]

/-- After the photo recompute, every result satisfies
`converted = original * rate`. -/
theorem photoRecompute_sound (s : AppState) :
    ∀ r ∈ (photoRecompute s).photoResults,
      r.converted = r.original * (photoRecompute s).exchangeRate := by
  unfold photoRecompute
  split
  · intro r hr
    simp only [List.mem_map] at hr
    obtain ⟨x, _, rfl⟩ := hr
    simp
  · next h =>
    intro r hr
    have hnil : s.photoResults = [] := by
      cases hl : s.photoResults with
      | nil => rfl
      | cons a l => rw [hl] at h; simp at h
    rw [hnil] at hr
    simp at hr

theorem rateInputChange_sound (s : AppState) (v : String) :
    ∀ r ∈ (rateInputChange s v).photoResults,
      r.converted = r.original * (rateInputChange s v).exchangeRate := by
  unfold rateInputChange
  exact photoRecompute_sound _

theorem rateInputChange_originals (s : AppState) (v : String) :
    (rateInputChange s v).photoResults.map PhotoResult.original =
      s.photoResults.map PhotoResult.original := by
  unfold rateInputChange
  rw [photoRecompute_originals, (manualRecompute_frame _).1]

theorem rateInputChange_exchangeRate (s : AppState) (v : String) :
    (rateInputChange s v).exchangeRate = (parseFloat v).getD 0 := by
  unfold rateInputChange
  rw [(photoRecompute_frame _).1, (manualRecompute_frame _).2.1]

theorem foldl_rateInputChange_sound (vs : List String) (s0 : AppState)
    (h : ∀ r ∈ s0.photoResults, r.converted = r.original * s0.exchangeRate) :
    ∀ r ∈ (List.foldl rateInputChange s0 vs).photoResults,
      r.converted = r.original * (List.foldl rateInputChange s0 vs).exchangeRate := by
  induction vs generalizing s0 with
  | nil => exact h
  | cons v vs ih => exact ih (rateInputChange s0 v) (rateInputChange_sound s0 v)

theorem foldl_rateInputChange_originals (vs : List String) (s0 : AppState) :
    (List.foldl rateInputChange s0 vs).photoResults.map PhotoResult.original =
      s0.photoResults.map PhotoResult.original := by
  induction vs generalizing s0 with
  | nil => rfl
  | cons v vs ih => rw [List.foldl_cons, ih, rateInputChange_originals]

/-- The manual input handler touches only `manualInput` and `manualResult`. -/
theorem handleManualInputChange_frame (s : AppState) (v : String) :
    (handleManualInputChange s v).error = s.error ∧
    (handleManualInputChange s v).photoResults = s.photoResults ∧
    (handleManualInputChange s v).imageFile = s.imageFile := by
  unfold handleManualInputChange
  split
  · split <;> simp
  · simp

/-- On non-numeric or negative input the manual handler of the primary
variant just stores the input and clears the result. -/
theorem handleManualInputChange_invalid (s : AppState) (v : String)
    (h : parseFloat v = none ∨ ∃ a, parseFloat v = some a ∧ a < 0) :
    handleManualInputChange s v = { s with manualInput := v, manualResult := "" } := by
  unfold handleManualInputChange
  split
  · rename_i a heq
    have hna : ¬ 0 ≤ a := by
      rcases h with h | ⟨b, hb, hbneg⟩
      · rw [heq] at h; simp at h
      · rw [heq] at hb
        injection hb with hab
        rw [hab]
        exact not_le.mpr hbneg
    rw [if_neg hna]
  · rfl

/-- Unfolding of a detection attempt with an image present and a resolved
response. -/
theorem mainDetect_finalState_response (s : AppState) (t : Option String) (m : String)
    (h : ¬ s.imageFile = none) :
    (mainDetect s (.response t m)).finalState =
      responseStep { s with isLoading := true, error := "", photoResults := [] }
        s.exchangeRate t m := by
  simp [mainDetect, h]

theorem photoInv_init : photoInv initState := by
  constructor <;> simp [initState]

theorem photoInv_step (op : MainOp) (s : AppState) (h : photoInv s) :
    photoInv (applyMain op s) := by
  obtain ⟨h1, h2⟩ := h
  cases op with
  | manualChange v =>
    have hf := handleManualInputChange_frame s v
    simp only [applyMain, photoInv, hf.1, hf.2.1, hf.2.2]
    exact ⟨h1, h2⟩
  | fileSelect f =>
    cases f with
    | some f => simp [applyMain, handleFileChange, photoInv]
    | none => exact ⟨h1, h2⟩
  | clearImg => simp [applyMain, clearImage, photoInv]
  | switchMode m =>
    simp only [applyMain, setModeMain, photoInv]
    exact ⟨h1, h2⟩
  | rateChange v =>
    have hmf := manualRecompute_frame { s with exchangeRate := (parseFloat v).getD 0 }
    simp only [applyMain, rateInputChange, photoInv, (photoRecompute_frame _).2.1,
      (photoRecompute_frame _).2.2.1, hmf.2.2.1, hmf.2.2.2.1]
    constructor
    · rcases h1 with h1 | h1
      · exact Or.inl h1
      · exact Or.inr (photoRecompute_nil _ (by rw [hmf.1]; exact h1))
    · intro hif
      exact photoRecompute_nil _ (by rw [hmf.1]; exact h2 hif)
  | detect env =>
    by_cases hif : s.imageFile = none
    · show photoInv (mainDetect s env).finalState
      unfold mainDetect
      rw [if_pos hif]
      exact ⟨Or.inr (h2 hif), fun _ => h2 hif⟩
    · cases env with
      | readError =>
        show photoInv (mainDetect s (.readError)).finalState
        simp [mainDetect, hif, photoInv]
      | missingKey =>
        show photoInv (mainDetect s (.missingKey)).finalState
        simp [mainDetect, hif, photoInv]
      | requestError m =>
        show photoInv (mainDetect s (.requestError m)).finalState
        simp [mainDetect, hif, photoInv]
      | response t m =>
        show photoInv (mainDetect s (.response t m)).finalState
        rw [mainDetect_finalState_response s t m hif]
        unfold responseStep
        cases hp : parseJsonNumberArray (effectiveBody t) with
        | none => exact ⟨Or.inr rfl, fun _ => rfl⟩
        | some l =>
          cases l with
          | nil => exact ⟨Or.inr rfl, fun _ => rfl⟩
          | cons a as => exact ⟨Or.inl rfl, fun hc => absurd hc hif⟩

theorem reachable_photoInv {s : AppState} (h : Reachable s) : photoInv s := by
  induction h with
  | init => exact photoInv_init
  | step op _ ih => exact photoInv_step op _ ih

/-! ## Claims -/

/-- C1: for every non-negative amount and positive rate, the conversion
stores exactly `amount * rate` — in the form variant's `handleConvert`
(which validates `amount ≥ 0` and whose `getCurrentRate` is always
positive), and in the primary variant's photo-result construction — with no
rounding at computation time; rounding to fixed fractional digits happens
only in the display formatting (`formatKoKR`). -/
theorem c1_conversion_exact :
    (∀ (s : FormState) (a : ℚ), parseFloat (jsTrim s.thbAmount) = some a → 0 ≤ a →
        (handleConvert s).krwAmount = some (a * getCurrentRate s.rateInput) ∧
        (handleConvert s).error = none) ∧
    (∀ (s : AppState) (t : Option String) (m : String) (l : List ℚ),
        s.imageFile ≠ none → parseJsonNumberArray (effectiveBody t) = some l → l ≠ [] →
        (mainDetect s (.response t m)).finalState.photoResults =
          l.map fun a => { original := a, converted := a * s.exchangeRate }) := by
  constructor
  · intro s a hp ha
    have hne : ¬ jsTrim s.thbAmount = "" := by
      intro h
      rw [h, parseFloat_empty] at hp
      simp at hp
    unfold handleConvert
    rw [if_neg hne]
    simp only [hp]
    rw [if_neg (not_lt.mpr ha)]
    exact ⟨rfl, rfl⟩
  · intro s t m l hf hp hl
    cases l with
    | nil => exact absurd rfl hl
    | cons a as =>
      rw [mainDetect_finalState_response s t m hf]
      unfold responseStep
      simp only [hp]

/-- C1 witness: manual input `" 1200 "` at rate input `"38.8"` converts to
exactly the parsed amount times the current rate, and a detected amount
`0.5` is stored as exactly `0.5 * rate` (the parsed values are written in
the unreduced form the parser produces, so that the hypotheses hold by
`rfl`). -/
theorem c1_witness :
    ((handleConvert formStateA).krwAmount =
        some ((1 : ℚ) * (((1200 : ℕ) : ℚ) + ((0 : ℕ) : ℚ) / 10 ^ (0 : ℕ)) *
          getCurrentRate formStateA.rateInput) ∧
     (handleConvert formStateA).error = none) ∧
    ((mainDetect photoStateC (.response (some "[0.5]") "pm")).finalState.photoResults =
      [(1 : ℚ) * (((0 : ℕ) : ℚ) + ((5 : ℕ) : ℚ) / 10 ^ (1 : ℕ))].map
        fun a => { original := a, converted := a * photoStateC.exchangeRate }) :=
  ⟨c1_conversion_exact.1 formStateA
      ((1 : ℚ) * (((1200 : ℕ) : ℚ) + ((0 : ℕ) : ℚ) / 10 ^ (0 : ℕ))) rfl (by simp),
   c1_conversion_exact.2 photoStateC (some "[0.5]") "pm"
      [(1 : ℚ) * (((0 : ℕ) : ℚ) + ((5 : ℕ) : ℚ) / 10 ^ (1 : ℕ))]
      (by decide) rfl (by simp)⟩

/-- C2: after a rate change (and any further sequence of rate changes),
every displayed photo result satisfies `converted = original * current rate`
— recomputed from the stored original, which the changes preserve, never
from a previously converted value, so no compounding is possible. -/
theorem c2_rate_change_no_compounding (s : AppState) (v : String) (vs : List String) :
    (∀ r ∈ (List.foldl rateInputChange (rateInputChange s v) vs).photoResults,
        r.converted = r.original *
          (List.foldl rateInputChange (rateInputChange s v) vs).exchangeRate) ∧
    (List.foldl rateInputChange (rateInputChange s v) vs).photoResults.map
        PhotoResult.original = s.photoResults.map PhotoResult.original := by
  constructor
  · exact foldl_rateInputChange_sound vs _ (rateInputChange_sound s v)
  · rw [foldl_rateInputChange_originals, rateInputChange_originals]

/-- C2 witness: the spec's example — original 1000 at rate 38.8, the rate
input changed to `"40"`: the displayed result is 1000 times the newly
stored rate (not a multiple of the previously converted 38800). -/
theorem c2_witness :
    ((⟨1000, 1000 * ((parseFloat "40").getD 0)⟩ : PhotoResult).converted =
      (⟨1000, 1000 * ((parseFloat "40").getD 0)⟩ : PhotoResult).original *
        (List.foldl rateInputChange (rateInputChange photoStateB "40") []).exchangeRate) ∧
    (List.foldl rateInputChange (rateInputChange photoStateB "40") []).photoResults.map
        PhotoResult.original = photoStateB.photoResults.map PhotoResult.original :=
  ⟨(c2_rate_change_no_compounding photoStateB "40" []).1
      ⟨1000, 1000 * ((parseFloat "40").getD 0)⟩ (List.Mem.head _),
   (c2_rate_change_no_compounding photoStateB "40" []).2⟩

/-- C9: the rate-change recompute effect modifies only the `converted`
fields: originals (values and order), the list length, the selected image,
the preview, the error message, the mode, the manual fields, the loading
flag and the rate itself are unchanged. -/
theorem c9_recompute_frame (s : AppState) :
    (photoRecompute s).photoResults.map PhotoResult.original =
        s.photoResults.map PhotoResult.original ∧
    (photoRecompute s).photoResults.length = s.photoResults.length ∧
    (photoRecompute s).imageFile = s.imageFile ∧
    (photoRecompute s).imagePreview = s.imagePreview ∧
    (photoRecompute s).error = s.error ∧
    (photoRecompute s).mode = s.mode ∧
    (photoRecompute s).manualInput = s.manualInput ∧
    (photoRecompute s).manualResult = s.manualResult ∧
    (photoRecompute s).isLoading = s.isLoading ∧
    (photoRecompute s).exchangeRate = s.exchangeRate :=
  ⟨photoRecompute_originals s, photoRecompute_length s,
   (photoRecompute_frame s).2.2.1, (photoRecompute_frame s).2.2.2.1,
   (photoRecompute_frame s).2.1, (photoRecompute_frame s).2.2.2.2.1,
   (photoRecompute_frame s).2.2.2.2.2.2.1, (photoRecompute_frame s).2.2.2.2.2.2.2,
   (photoRecompute_frame s).2.2.2.2.2.1, (photoRecompute_frame s).1⟩

/-- C10: in every reachable state of the primary variant, a non-empty error
message and a non-empty photo-result list are never present simultaneously. -/
theorem c10_error_results_exclusive (s : AppState) (h : Reachable s) :
    ¬ (s.error ≠ "" ∧ s.photoResults ≠ []) := by
  rintro ⟨he, hr⟩
  rcases (reachable_photoInv h).1 with h1 | h1
  · exact he h1
  · exact hr h1

/-- C10 witness: the state reached by selecting a file and then running a
detection whose response body is unparseable satisfies the exclusivity. -/
theorem c10_witness :
    ¬ (((applyMain (MainOp.detect (DetectEnv.response (some "zz") "SyntaxError"))
          (applyMain (MainOp.fileSelect (some 1)) initState)).error ≠ "") ∧
       ((applyMain (MainOp.detect (DetectEnv.response (some "zz") "SyntaxError"))
          (applyMain (MainOp.fileSelect (some 1)) initState)).photoResults ≠ [])) :=
  c10_error_results_exclusive _
    (Reachable.step _ (Reachable.step _ Reachable.init))

/-- C3 counterexample: a malformed response body (`"oops"`) makes
`JSON.parse` throw, which lands in the catch block: the resulting error is
the generic detection-error message with the parse error appended — not the
EmptyResult ("no amounts found") message the claim requires. -/
theorem c3_counterexample :
    (mainDetect photoStateC (.response (some "oops") "Unexpected token o")).finalState.error =
      msgGeneric ++ ": " ++ "Unexpected token o" ∧
    (mainDetect photoStateC
        (.response (some "oops") "Unexpected token o")).finalState.error ≠ msgNoAmounts ∧
    msgGeneric ++ ": " ++ "Unexpected token o" ≠ msgApiKey := by
  refine ⟨rfl, ?_, ?_⟩ <;> decide

/-- C3 amended: a response body that is missing, empty, or the array `[]`
yields the EmptyResult state ("no amounts found" message); a
malformed/unparseable body is caught and yields a DetectionError (the catch
block's message), as does a request failure.  In the form variant an empty
body likewise yields a DetectionError. -/
theorem c3_amended_empty_vs_malformed :
    (∀ (s : AppState) (t : Option String) (m : String),
        s.imageFile ≠ none → (t = none ∨ t = some "" ∨ t = some "[]") →
        (mainDetect s (.response t m)).finalState.error = msgNoAmounts) ∧
    (∀ (s : AppState) (t : Option String) (m : String),
        s.imageFile ≠ none → parseJsonNumberArray (effectiveBody t) = none →
        (mainDetect s (.response t m)).finalState.error = catchMessage m) ∧
    (∀ (s : AppState) (m : String), s.imageFile ≠ none →
        (mainDetect s (.requestError m)).finalState.error = catchMessage m) ∧
    (∀ (s : FormState) (t m : String), s.imageFile ≠ none → jsTrim t = "" →
        (formDetect s (.response t m)).2.imageError =
          some (fmsgGeneric ++ ": " ++ fmsgEmptyResponse)) := by
  refine ⟨?_, ?_, ?_, ?_⟩
  · intro s t m hf ht
    rw [mainDetect_finalState_response s t m hf]
    have hp : parseJsonNumberArray (effectiveBody t) = some [] := by
      rcases ht with rfl | rfl | rfl <;> decide
    unfold responseStep
    simp only [hp]
  · intro s t m hf hp
    rw [mainDetect_finalState_response s t m hf]
    unfold responseStep
    simp only [hp]
  · intro s m hf
    simp [mainDetect, hf]
  · intro s t m hf ht
    simp [formDetect, hf, ht]

/-- C3 witness: with an image selected, a missing body, an empty body and
`"[]"` each produce the "no amounts found" message; the body `"garbage"`
produces the generic detection error with the parse message appended; and
in the form variant a whitespace-only body produces the detection error
carrying the empty-response message. -/
theorem c3_witness :
    (mainDetect photoStateC (.response none "pm")).finalState.error = msgNoAmounts ∧
    (mainDetect photoStateC (.response (some "") "pm")).finalState.error = msgNoAmounts ∧
    (mainDetect photoStateC (.response (some "[]") "pm")).finalState.error = msgNoAmounts ∧
    (mainDetect photoStateC
        (.response (some "garbage") "Unexpected token g")).finalState.error =
      catchMessage "Unexpected token g" ∧
    (formDetect formStateImg (.response "  " "pm")).2.imageError =
      some (fmsgGeneric ++ ": " ++ fmsgEmptyResponse) :=
  ⟨c3_amended_empty_vs_malformed.1 photoStateC none "pm" (by decide) (Or.inl rfl),
   c3_amended_empty_vs_malformed.1 photoStateC (some "") "pm" (by decide)
     (Or.inr (Or.inl rfl)),
   c3_amended_empty_vs_malformed.1 photoStateC (some "[]") "pm" (by decide)
     (Or.inr (Or.inr rfl)),
   c3_amended_empty_vs_malformed.2.1 photoStateC (some "garbage") "Unexpected token g"
     (by decide) (by decide),
   c3_amended_empty_vs_malformed.2.2.2 formStateImg "  " "pm" (by decide) (by decide)⟩

/-- C4: with the credential absent the code throws
`Error('Missing VITE_GEMINI_API_KEY')` before any request is issued — so no
network I/O happens — but the catch block's `/api\s*key/i` test does not
match that message (the underscore is not whitespace), so the user sees the
generic DetectionError message with the thrown text appended, not the
credential-specific message the claim (and the code's own comment) expects.
The regex does match a spaced variant such as "API key not valid". -/
theorem c4_missing_key_behavior :
    (mainDetect photoStateC .missingKey).networkAttempted = false ∧
    (mainDetect photoStateC .missingKey).finalState.error =
      msgGeneric ++ ": " ++ msgMissingKey ∧
    (mainDetect photoStateC .missingKey).finalState.error ≠ msgApiKey ∧
    testApiKey msgMissingKey = false ∧
    testApiKey "API key not valid" = true := by
  refine ⟨rfl, rfl, ?_, ?_, ?_⟩ <;> decide

/-- C5 counterexample: in the primary variant the rate input's `onChange`
stores `parseFloat(v) || 0`: the non-numeric entry `"abc"` sets the rate to
0 — not the default 38.8 — and the non-positive entry `"-5"` is stored as
-5 and used as provided. -/
theorem c5_counterexample :
    (rateInputChange initState "abc").exchangeRate = 0 ∧
    (0 : ℚ) ≠ DEFAULT_EXCHANGE_RATE ∧
    (rateInputChange initState "-5").exchangeRate = -5 ∧
    (-5 : ℚ) ≠ DEFAULT_EXCHANGE_RATE := by
  have h2 : (rateInputChange initState "-5").exchangeRate =
      -1 * (((5 : ℕ) : ℚ) + ((0 : ℕ) : ℚ) / 10 ^ (0 : ℕ)) := rfl
  refine ⟨rfl, by norm_num [DEFAULT_EXCHANGE_RATE], ?_,
    by norm_num [DEFAULT_EXCHANGE_RATE]⟩
  rw [h2]
  norm_num

/-- C5 amended: only the form variant's `getCurrentRate` falls back to the
default rate 38.8 on non-numeric or non-positive rate input (and uses the
parsed value when positive); in the primary variant the rate input's
`onChange` stores `parseFloat(v) || 0`, so a non-numeric entry makes
conversions use the rate 0 and a negative entry is used as provided. -/
theorem c5_amended_rate_fallback :
    (∀ ri : String, parseFloat ri = none → getCurrentRate ri = DEFAULT_EXCHANGE_RATE) ∧
    (∀ (ri : String) (r : ℚ), parseFloat ri = some r → r ≤ 0 →
        getCurrentRate ri = DEFAULT_EXCHANGE_RATE) ∧
    (∀ (ri : String) (r : ℚ), parseFloat ri = some r → 0 < r →
        getCurrentRate ri = r) ∧
    (∀ (s : AppState) (v : String), parseFloat v = none →
        (rateInputChange s v).exchangeRate = 0) := by
  refine ⟨?_, ?_, ?_, ?_⟩
  · intro ri h
    unfold getCurrentRate
    rw [h]
  · intro ri r h hle
    unfold getCurrentRate
    rw [h]
    show (if r ≤ 0 then DEFAULT_EXCHANGE_RATE else r) = DEFAULT_EXCHANGE_RATE
    rw [if_pos hle]
  · intro ri r h hpos
    unfold getCurrentRate
    rw [h]
    show (if r ≤ 0 then DEFAULT_EXCHANGE_RATE else r) = r
    rw [if_neg (not_le.mpr hpos)]
  · intro s v h
    rw [rateInputChange_exchangeRate, h]
    rfl

/-- C5 witness: `getCurrentRate` on `"abc"` and `"-5"` yields the default
rate; on `"40"` it yields the parsed value; and the primary variant's rate
change with `"abc"` stores 0. -/
theorem c5_witness :
    getCurrentRate "abc" = DEFAULT_EXCHANGE_RATE ∧
    getCurrentRate "-5" = DEFAULT_EXCHANGE_RATE ∧
    getCurrentRate "40" = (1 : ℚ) * (((40 : ℕ) : ℚ) + ((0 : ℕ) : ℚ) / 10 ^ (0 : ℕ)) ∧
    (rateInputChange initState "abc").exchangeRate = 0 :=
  ⟨c5_amended_rate_fallback.1 "abc" (by decide),
   c5_amended_rate_fallback.2.1 "-5"
     (-1 * (((5 : ℕ) : ℚ) + ((0 : ℕ) : ℚ) / 10 ^ (0 : ℕ))) rfl (by simp),
   c5_amended_rate_fallback.2.2.1 "40"
     ((1 : ℚ) * (((40 : ℕ) : ℚ) + ((0 : ℕ) : ℚ) / 10 ^ (0 : ℕ))) rfl (by simp),
   c5_amended_rate_fallback.2.2.2 initState "abc" (by decide)⟩

/-- C6 counterexample: in the primary variant the mode tabs call only
`setMode`: switching photo → manual → photo leaves the selected image, the
preview and the non-empty displayed results all in place, clearing
nothing. -/
theorem c6_counterexample :
    (setModeMain (setModeMain photoStateB .manual) .photo).photoResults =
      photoStateB.photoResults ∧
    photoStateB.photoResults ≠ [] ∧
    (setModeMain (setModeMain photoStateB .manual) .photo).imageFile = some 1 ∧
    (setModeMain (setModeMain photoStateB .manual) .photo).imagePreview = some 1 := by
  refine ⟨rfl, ?_, rfl, rfl⟩
  simp [photoStateB]

/-- C6 amended: in the form variant every mode switch clears the selected
image, preview, photo results, photo error, manual error and manual result;
in the primary variant the mode tabs change only the mode and all photo
state (image, preview, results, error) persists. -/
theorem c6_amended_mode_switch (s : FormState) (m : FMode) (s2 : AppState) (m2 : Mode) :
    (onModeChange s m).mode = m ∧
    (onModeChange s m).imageFile = none ∧
    (onModeChange s m).imagePreviewUrl = none ∧
    (onModeChange s m).imageResults = none ∧
    (onModeChange s m).imageError = none ∧
    (onModeChange s m).error = none ∧
    (onModeChange s m).krwAmount = none ∧
    (setModeMain s2 m2).mode = m2 ∧
    (setModeMain s2 m2).photoResults = s2.photoResults ∧
    (setModeMain s2 m2).imageFile = s2.imageFile ∧
    (setModeMain s2 m2).imagePreview = s2.imagePreview ∧
    (setModeMain s2 m2).error = s2.error :=
  ⟨rfl, rfl, rfl, rfl, rfl, rfl, rfl, rfl, rfl, rfl, rfl, rfl⟩

/-- C7 counterexample: in the primary variant the inputs `"-5"` and `"abc"`
clear the manual result but produce no user-visible error at all — the
error state stays empty, so no ValidationError is shown. -/
theorem c7_counterexample :
    (handleManualInputChange initState "-5").manualResult = "" ∧
    (handleManualInputChange initState "-5").error = "" ∧
    (handleManualInputChange initState "abc").manualResult = "" ∧
    (handleManualInputChange initState "abc").error = "" := by
  have h5 := handleManualInputChange_invalid initState "-5"
    (Or.inr ⟨-1 * (((5 : ℕ) : ℚ) + ((0 : ℕ) : ℚ) / 10 ^ (0 : ℕ)), rfl, by norm_num⟩)
  have hab := handleManualInputChange_invalid initState "abc" (Or.inl (by decide))
  rw [h5, hab]
  exact ⟨rfl, rfl, rfl, rfl⟩

/-- C7 amended: in the form variant, non-numeric or negative manual input
produces the user-visible validation error and no converted value; in the
primary variant such input clears the converted result but shows no error
message (the error state is untouched). -/
theorem c7_amended_validation :
    (∀ s : FormState, jsTrim s.thbAmount ≠ "" → parseFloat (jsTrim s.thbAmount) = none →
        (handleConvert s).error = some fmsgValidNumber ∧
        (handleConvert s).krwAmount = none) ∧
    (∀ (s : FormState) (a : ℚ), parseFloat (jsTrim s.thbAmount) = some a → a < 0 →
        (handleConvert s).error = some fmsgValidNumber ∧
        (handleConvert s).krwAmount = none) ∧
    (∀ (s : AppState) (v : String),
        (parseFloat v = none ∨ ∃ a, parseFloat v = some a ∧ a < 0) →
        (handleManualInputChange s v).manualResult = "" ∧
        (handleManualInputChange s v).error = s.error) := by
  refine ⟨?_, ?_, ?_⟩
  · intro s hne hp
    unfold handleConvert
    rw [if_neg hne]
    simp [hp]
  · intro s a hp hneg
    have hne : ¬ jsTrim s.thbAmount = "" := by
      intro h
      rw [h, parseFloat_empty] at hp
      simp at hp
    unfold handleConvert
    rw [if_neg hne]
    simp only [hp]
    rw [if_pos hneg]
    exact ⟨rfl, rfl⟩
  · intro s v h
    rw [handleManualInputChange_invalid s v h]
    exact ⟨rfl, rfl⟩

/-- C7 witness: form variant — `"abc"` and `"-5"` each yield the validation
error message and no converted value; primary variant — `"abc"` clears the
result and leaves the error state unchanged. -/
theorem c7_witness :
    ((handleConvert { formStateA with thbAmount := "abc" }).error =
        some fmsgValidNumber ∧
     (handleConvert { formStateA with thbAmount := "abc" }).krwAmount = none) ∧
    ((handleConvert { formStateA with thbAmount := "-5" }).error =
        some fmsgValidNumber ∧
     (handleConvert { formStateA with thbAmount := "-5" }).krwAmount = none) ∧
    ((handleManualInputChange initState "abc").manualResult = "" ∧
     (handleManualInputChange initState "abc").error = initState.error) :=
  ⟨c7_amended_validation.1 { formStateA with thbAmount := "abc" } (by decide) (by decide),
   c7_amended_validation.2.1 { formStateA with thbAmount := "-5" }
     (-1 * (((5 : ℕ) : ℚ) + ((0 : ℕ) : ℚ) / 10 ^ (0 : ℕ))) rfl (by simp),
   c7_amended_validation.2.2 initState "abc" (Or.inl (by decide))⟩

/-- C8: whenever an image is selected, both variants set the loading flag in
the synchronous prelude of the detection handler and clear it on every
completion path (success, empty result, parse failure, thrown error), so
the detect trigger is re-enabled regardless of outcome. -/
theorem c8_loading_flag :
    (∀ (s : AppState) (env : DetectEnv), s.imageFile ≠ none →
        (mainDetect s env).startState.isLoading = true ∧
        (mainDetect s env).finalState.isLoading = false) ∧
    (∀ (s : FormState) (env : FormDetectEnv), s.imageFile ≠ none →
        (formDetect s env).1.isDetecting = true ∧
        (formDetect s env).2.isDetecting = false) := by
  constructor
  · intro s env hif
    cases env with
    | readError => simp [mainDetect, hif]
    | missingKey => simp [mainDetect, hif]
    | requestError m => simp [mainDetect, hif]
    | response t m =>
      refine ⟨by simp [mainDetect, hif], ?_⟩
      rw [mainDetect_finalState_response s t m hif]
      unfold responseStep
      cases hp : parseJsonNumberArray (effectiveBody t) with
      | none => simp only [hp]
      | some l =>
        cases l with
        | nil => simp only [hp]
        | cons a as => simp only [hp]
  · intro s env hif
    cases env with
    | thrown m => simp [formDetect, hif]
    | response t m =>
      by_cases ht : jsTrim t = ""
      · simp [formDetect, hif, ht]
      · cases hp : parseAmountsObject (jsTrim t) with
        | none => simp [formDetect, hif, ht, hp]
        | some o =>
          cases o with
          | none => simp [formDetect, hif, ht, hp]
          | some l =>
            cases l with
            | nil => simp [formDetect, hif, ht, hp]
            | cons a as => simp [formDetect, hif, ht, hp]

/-- C8 witness: with an image selected, an empty-array response in the
primary variant and a thrown error in the form variant both set the flag at
the start and clear it at the end. -/
theorem c8_witness :
    ((mainDetect photoStateC (.response (some "[]") "pm")).startState.isLoading = true ∧
     (mainDetect photoStateC (.response (some "[]") "pm")).finalState.isLoading = false) ∧
    ((formDetect formStateImg (.thrown (some "boom"))).1.isDetecting = true ∧
     (formDetect formStateImg (.thrown (some "boom"))).2.isDetecting = false) :=
  ⟨c8_loading_flag.1 photoStateC (.response (some "[]") "pm") (by decide),
   c8_loading_flag.2 formStateImg (.thrown (some "boom")) (by decide)⟩

end SnapMoney
